import Mathlib

/-!
Shallow embedding of `src/bin/dns_proxy.py` (Splunk DNS proxy modular input).

The file models:
  * `SplunkDNSLogger` and its event-emitting methods (`log_recv`, `log_send`,
    `log_request`, `log_reply`, `log_truncated`, `log_error`), with Splunk
    events modelled as association lists of field name to field value, the
    direct image of the Python dict literals passed to `write_event`;
  * `binascii.hexlify`, used for the `data` field of received/sent events;
  * `DNSProxyInput.run`, the start operation, as a transition on the
    modular-input state `(udp_server, tcp_server)`, with Python exceptions
    modelled as `Option` (`none` = the call raised);
  * the upstream `host[:port]` parsing done with `str.partition` and `int`;
  * the per-datagram serving pipeline of the DNS server (which lives in the
    external `dnslib` package, not in the repository source), modelled from
    the specification.
-/

namespace DNSProxy

/-- A field value as written into an event dict: Python str or int. -/
inductive FVal where
  | str (s : String)
  | num (n : Nat)
deriving DecidableEq, Repr

/-- An emitted Splunk event: the dict passed to `StashNewWriter.write_event`,
as an association list of field name to value (dict literals in the source
have pairwise distinct keys). -/
def Event : Type := List (String × FVal)

/-- Look up a field of an event, as Python dict access would. -/
def fieldOf (e : Event) (k : String) : Option FVal :=
  (e.find? (fun kv => kv.1 = k)).map (fun kv => kv.2)

/-- The request-handler context the logger methods read: `handler.client_address`
(an `(ip, port)` pair) and `handler.protocol`. -/
structure Handler where
  client_address : String × Nat
  protocol : String
deriving DecidableEq, Repr

/-- A DNS question: `q.qname` and `q.qtype` of a decoded `DNSRecord`. -/
structure DNSQuestion where
  qname : String
  qtype : Nat
deriving DecidableEq, Repr

/-- The header fields of a decoded `DNSRecord` that the proxy reads:
response code `rcode` and truncation flag `tc`. -/
structure DNSHeader where
  rcode : Nat
  tc : Bool
deriving DecidableEq, Repr

/-- An answer resource record; the logger only reads its type `rtype`. -/
structure RRec where
  rtype : Nat
deriving DecidableEq, Repr

/-- A decoded DNS message (query or reply) as the logger consumes it. -/
structure DNSRecordMsg where
  header : DNSHeader
  q : DNSQuestion
  rr : List RRec
deriving DecidableEq, Repr

/-- `RCODE.NOERROR` of dnslib: response code 0. -/
def RCODE_NOERROR : Nat := 0

/-- Modelled from the spec: the Wire Codec's record-type naming
(`QTYPE[n]` of dnslib, an external capability the core consumes). A
representative table of the common mnemonics with a generic fallback;
the claims depend only on the mapping being applied, not on its entries. -/
def QTYPE (n : Nat) : String :=
  if n = 1 then "A"
  else if n = 2 then "NS"
  else if n = 5 then "CNAME"
  else if n = 6 then "SOA"
  else if n = 12 then "PTR"
  else if n = 15 then "MX"
  else if n = 16 then "TXT"
  else if n = 28 then "AAAA"
  else "TYPE" ++ toString n

/-- A hexadecimal digit character, lowercase: `0`-`9` then `a`-`f`. -/
def hexDigit (n : Nat) : Char :=
  if n < 10 then Char.ofNat (48 + n) else Char.ofNat (87 + n)

/-- `binascii.hexlify`: each byte becomes two lowercase hex digits,
high nibble first. -/
def hexlify (bs : List Nat) : String :=
  String.mk (bs.flatMap (fun b => [hexDigit (b / 16), hexDigit (b % 16)]))

/-- The numeric value of a hex digit character (lowercase letters only),
`none` for any character that is not a lowercase hexadecimal digit. -/
def hexVal (c : Char) : Option Nat :=
  if 48 ≤ c.toNat ∧ c.toNat ≤ 57 then some (c.toNat - 48)
  else if 97 ≤ c.toNat ∧ c.toNat ≤ 102 then some (c.toNat - 87)
  else none

/-- Decode a lowercase-hex character string back to its byte list
(`binascii.unhexlify`); `none` on odd length or a non-hex character. -/
def unhexlify : List Char → Option (List Nat)
  | [] => some []
  | [_] => none
  | c1 :: c2 :: rest =>
    match hexVal c1, hexVal c2, unhexlify rest with
    | some h, some l, some bs => some ((16 * h + l) :: bs)
    | _, _, _ => none

/-- `SplunkDNSLogger.log_recv`: the event emitted for raw bytes received. -/
def log_recv (handler : Handler) (data : List Nat) : Event :=
  [("type", .str "received"),
   ("client_address", .str handler.client_address.1),
   ("client_port", .num handler.client_address.2),
   ("protocol", .str handler.protocol),
   ("length", .num data.length),
   ("data", .str (hexlify data))]

/-- `SplunkDNSLogger.log_send`: the event emitted for raw bytes sent. -/
def log_send (handler : Handler) (data : List Nat) : Event :=
  [("type", .str "sent"),
   ("client_address", .str handler.client_address.1),
   ("client_port", .num handler.client_address.2),
   ("protocol", .str handler.protocol),
   ("length", .num data.length),
   ("data", .str (hexlify data))]

/-- `SplunkDNSLogger.log_request`: the event emitted for a decoded query. -/
def log_request (handler : Handler) (request : DNSRecordMsg) : Event :=
  [("type", .str "request"),
   ("client_address", .str handler.client_address.1),
   ("client_port", .num handler.client_address.2),
   ("protocol", .str handler.protocol),
   ("query_name", .str request.q.qname),
   ("response_type", .str (QTYPE request.q.qtype))]

/-- `SplunkDNSLogger.log_reply`: the event emitted for a decoded reply,
branching on `reply.header.rcode == RCODE.NOERROR`. -/
def log_reply (handler : Handler) (reply : DNSRecordMsg) : Event :=
  if reply.header.rcode = RCODE_NOERROR then
    [("type", .str "reply"),
     ("client_address", .str handler.client_address.1),
     ("client_port", .num handler.client_address.2),
     ("protocol", .str handler.protocol),
     ("query_name", .str reply.q.qname),
     ("response_type", .str (QTYPE reply.q.qtype)),
     ("response_records", .str (String.intercalate ","
        (reply.rr.map (fun a => QTYPE a.rtype))))]
  else
    [("type", .str "reply"),
     ("client_address", .str handler.client_address.1),
     ("client_port", .num handler.client_address.2),
     ("protocol", .str handler.protocol),
     ("query_name", .str reply.q.qname),
     ("response_type", .str (QTYPE reply.q.qtype)),
     ("response_code", .num reply.header.rcode)]

/-- `SplunkDNSLogger.log_truncated`: the event emitted for a truncated reply.
Unconditionally carries `response_records`; never a `response_code`. -/
def log_truncated (handler : Handler) (reply : DNSRecordMsg) : Event :=
  [("type", .str "truncated_reply"),
   ("client_address", .str handler.client_address.1),
   ("client_port", .num handler.client_address.2),
   ("protocol", .str handler.protocol),
   ("query_name", .str reply.q.qname),
   ("response_type", .str (QTYPE reply.q.qtype)),
   ("response_records", .str (String.intercalate ","
      (reply.rr.map (fun a => QTYPE a.rtype))))]

/-- `SplunkDNSLogger.log_error`: the event emitted for a malformed request
or a forwarding failure; `error` is `str(e)`. -/
def log_error (handler : Handler) (e : String) : Event :=
  [("type", .str "invalid_request"),
   ("client_address", .str handler.client_address.1),
   ("client_port", .num handler.client_address.2),
   ("protocol", .str handler.protocol),
   ("error", .str e)]

/-- The closed set of event types the logger emits. -/
def eventTypes : List String :=
  ["received", "sent", "request", "reply", "truncated_reply", "invalid_request"]

/-! ### `DNSProxyInput`: configuration and the `run` start operation -/

/-- A cleaned configuration parameter value (the host framework validates
types per field, so each key maps to a str or an int). -/
inductive PVal where
  | str (s : String)
  | num (n : Nat)
deriving DecidableEq, Repr

/-- `cleaned_params`: the dict of configuration parameters passed to `run`,
as an association list with pairwise distinct keys. -/
def CleanedParams : Type := List (String × PVal)

/-- Python `cleaned_params.get(k)` without a default: the value if the key
is present, else `None`. -/
def pget (p : CleanedParams) (k : String) : Option PVal :=
  (p.find? (fun kv => kv.1 = k)).map (fun kv => kv.2)

/-- `cleaned_params.get(k, d)` for an integer-typed field (the host's
`IntegerField` cleaning guarantees a present value is an int). -/
def getNum (p : CleanedParams) (k : String) (d : Nat) : Nat :=
  match pget p k with
  | some (.num n) => n
  | _ => d

/-- `cleaned_params.get(k, d)` for a string-typed field. -/
def getStr (p : CleanedParams) (k : String) (d : String) : String :=
  match pget p k with
  | some (.str s) => s
  | _ => d

/-- `cleaned_params.get(k, None)` for a string-typed field: `none` models
Python `None`. -/
def getStrOpt (p : CleanedParams) (k : String) : Option String :=
  match pget p k with
  | some (.str s) => some s
  | _ => none

/-- Split a character list at the first `:`; `none` when no `:` occurs. -/
def partitionChars : List Char → Option (List Char × List Char)
  | [] => none
  | c :: cs =>
    if c = ':' then some ([], cs)
    else
      match partitionChars cs with
      | none => none
      | some (a, b) => some (c :: a, b)

/-- Python `s.partition(':')`: `(before, sep, after)` at the first `:`,
or `(s, "", "")` when `s` has no `:`. -/
def pyPartition (s : String) : String × String × String :=
  match partitionChars s.data with
  | none => (s, "", "")
  | some (a, b) => (String.mk a, ":", String.mk b)

/-- Python `int(s)` on the strings that occur here (nonnegative digit
strings); `none` models `ValueError`. Python `int` also accepts sign,
surrounding whitespace and underscores, which never arise in this code. -/
def pyInt (s : String) : Option Nat := s.toNat?

/-- Lines 155-156 of `run`: split `upstream_dns` on the first `:`, then
`int(upstream_dns_port or 53)` — the empty string is falsy, so an absent
or empty port component becomes 53. Returns `(host, port?)`, `none` port
modelling the `ValueError` of `int`. -/
def parseUpstream (s : String) : String × Option Nat :=
  let t := pyPartition s
  (t.1, if t.2.2 = "" then some 53 else pyInt t.2.2)

/-- `ProxyResolver(upstream_dns_server, upstream_dns_port, 5)`:
the Upstream Forwarder, holding target host, port and timeout. -/
structure ProxyResolver where
  address : String
  port : Nat
  timeout : Nat
deriving DecidableEq, Repr

/-- A `DNSServer` as constructed by `run`: resolver, bind port and
address, and whether it is the TCP variant. -/
structure DNSServer where
  resolver : ProxyResolver
  port : Nat
  address : String
  tcp : Bool
deriving DecidableEq, Repr

/-- The mutable state of `DNSProxyInput`: its `udp_server` and
`tcp_server` fields (`None` until `run` starts them). -/
structure ProxyState where
  udp_server : Option DNSServer
  tcp_server : Option DNSServer
deriving DecidableEq, Repr

/-- The state set up by `DNSProxyInput.__init__`: no servers yet. -/
def initState : ProxyState := { udp_server := none, tcp_server := none }

/-- A field of the modular-input scheme declared in
`DNSProxyInput.__init__`: its name and its `empty_allowed` flag. -/
structure FieldSpec where
  name : String
  empty_allowed : Bool
deriving DecidableEq, Repr

/-- The `args` list of `DNSProxyInput.__init__`: `upstream_dns` (required),
`address` (optional), `port` (required). -/
def dnsProxyArgs : List FieldSpec :=
  [{ name := "upstream_dns", empty_allowed := false },
   { name := "address", empty_allowed := true },
   { name := "port", empty_allowed := false }]

/-- `DNSProxyInput.run` as a state transition: returns the existing state
unchanged when `udp_server` is already set, otherwise reads the parameters
(`port` defaulting to 53, `address` to `""`, `upstream_dns` to `None`),
parses the upstream target, builds one `ProxyResolver` with timeout 5, and
starts the UDP and TCP servers on the configured port and address.
`none` models an uncaught exception (`upstream_dns` absent so
`None.partition` raises, or `int` raising on a non-numeric port text). -/
def run (st : ProxyState) (p : CleanedParams) : Option ProxyState :=
  if st.udp_server.isSome then some st
  else
    match getStrOpt p "upstream_dns" with
    | none => none
    | some upstream_dns =>
      let port := getNum p "port" 53
      let address := getStr p "address" ""
      let parsed := parseUpstream upstream_dns
      match parsed.2 with
      | none => none
      | some upstream_dns_port =>
        let resolver : ProxyResolver :=
          { address := parsed.1, port := upstream_dns_port, timeout := 5 }
        some
          { udp_server := some
              { resolver := resolver, port := port, address := address,
                tcp := false },
            tcp_server := some
              { resolver := resolver, port := port, address := address,
                tcp := true } }

/-- `run` iterated `n` times on the same parameters, propagating an
exception. -/
def runN : Nat → ProxyState → CleanedParams → Option ProxyState
  | 0, st, _ => some st
  | n + 1, st, p =>
    match run st p with
    | none => none
    | some st' => runN n st' p

/-! ### The per-datagram serving pipeline -/

/-- The outcome of forwarding a decoded query upstream, as the serving
loop sees it: a Forwarder failure, or raw reply bytes paired with their
decode result (`none` when the upstream reply is malformed). -/
inductive UpstreamOutcome where
  | fail (e : String)
  | ok (rawReply : List Nat) (decoded : Option DNSRecordMsg)
deriving DecidableEq, Repr

/-- Modelled from the spec: the per-datagram serving loop of the DNS
server (dnslib's `DNSServer`/`PassthroughDNSHandler`, which is not part of
the repository source). Per inbound datagram: emit `received`; on decode
failure emit `invalid_request` and drop; on success emit `request` and
forward; on Forwarder failure or a malformed upstream reply emit
`invalid_request` and drop; otherwise emit `reply` (or `truncated_reply`
when the header truncation bit is set), write the raw reply bytes back,
and emit `sent`. Returns the emitted events in order and the bytes
transmitted back to the client (`none` when nothing was sent). -/
def handleDatagram (h : Handler) (raw : List Nat)
    (decodedQuery : Option DNSRecordMsg) (up : UpstreamOutcome) :
    List Event × Option (List Nat) :=
  let recvE := log_recv h raw
  match decodedQuery with
  | none => ([recvE, log_error h "invalid request"], none)
  | some request =>
    let reqE := log_request h request
    match up with
    | .fail e => ([recvE, reqE, log_error h e], none)
    | .ok _ none => ([recvE, reqE, log_error h "invalid reply"], none)
    | .ok rawReply (some reply) =>
      let replyE :=
        if reply.header.tc then log_truncated h reply else log_reply h reply
      ([recvE, reqE, replyE, log_send h rawReply], some rawReply)

/-- The `type` field of an event. -/
def eventType (e : Event) : Option FVal := fieldOf e "type"

/-- How many events in a list have the given `type` field. -/
def countType (evs : List Event) (t : String) : Nat :=
  (evs.filter (fun e => eventType e = some (.str t))).length

/-- The common envelope every logger event carries: its `type` drawn from
the closed set of event types, and the client address, client port and
protocol of the handling context. -/
def goodEnvelope (e : Event) (t : String) (h : Handler) : Prop :=
  fieldOf e "type" = some (.str t) ∧ t ∈ eventTypes ∧
  fieldOf e "client_address" = some (.str h.client_address.1) ∧
  fieldOf e "client_port" = some (.num h.client_address.2) ∧
  fieldOf e "protocol" = some (.str h.protocol)

/-! ### Sample values used for concrete witnesses and counterexamples -/

/-- A sample UDP handling context. -/
def h0 : Handler := { client_address := ("127.0.0.1", 40000), protocol := "udp" }

/-- A sample NOERROR reply with one A answer record. -/
def replyOk : DNSRecordMsg :=
  { header := { rcode := 0, tc := false },
    q := { qname := "example.com.", qtype := 1 }, rr := [{ rtype := 1 }] }

/-- A sample NXDOMAIN (rcode 3) reply with no answer records. -/
def replyErr : DNSRecordMsg :=
  { header := { rcode := 3, tc := false },
    q := { qname := "example.com.", qtype := 1 }, rr := [] }

/-- A sample truncated NOERROR reply with one A answer record. -/
def replyTruncOk : DNSRecordMsg :=
  { header := { rcode := 0, tc := true },
    q := { qname := "example.com.", qtype := 1 }, rr := [{ rtype := 1 }] }

/-- A sample truncated SERVFAIL (rcode 2) reply with no answer records. -/
def replyTruncErr : DNSRecordMsg :=
  { header := { rcode := 2, tc := true },
    q := { qname := "example.com.", qtype := 1 }, rr := [] }

/-- Sample configuration parameters: upstream `8.8.8.8`, port 5300. -/
def p4 : CleanedParams :=
  [("upstream_dns", .str "8.8.8.8"), ("port", .num 5300)]

/-- The resolver built from upstream string `8.8.8.8`. -/
def resolver4 : ProxyResolver := { address := "8.8.8.8", port := 53, timeout := 5 }

/-- The state `run` reaches from `p4`. -/
def st4c : ProxyState :=
  { udp_server := some { resolver := resolver4, port := 5300, address := "", tcp := false },
    tcp_server := some { resolver := resolver4, port := 5300, address := "", tcp := true } }

/-- Sample parameters carrying a `timeout` of 10. -/
def p7 : CleanedParams :=
  [("upstream_dns", .str "8.8.8.8"), ("port", .num 53), ("timeout", .num 10)]

/-- Sample parameters with no `port` key at all. -/
def p8 : CleanedParams := [("upstream_dns", .str "8.8.8.8")]

/-- The UDP server `run` builds from `p7` (and from `p8`). -/
def u7 : DNSServer := { resolver := resolver4, port := 53, address := "", tcp := false }

/-- The state `run` reaches from `p7` (and from `p8`). -/
def st7c : ProxyState :=
  { udp_server := some u7,
    tcp_server := some { resolver := resolver4, port := 53, address := "", tcp := true } }

/-! ### Formalisations of claims to be refuted -/

/-- Claim C3 as stated: a truncated reply event carries either the
record-type list or the response code according to the reply's response
code, exactly as a `reply` event would. -/
def C3_claim : Prop :=
  ∀ (h : Handler) (reply : DNSRecordMsg),
    (reply.header.rcode = RCODE_NOERROR →
      fieldOf (log_truncated h reply) "response_records" =
        some (.str (String.intercalate ","
          (reply.rr.map (fun a => QTYPE a.rtype)))) ∧
      fieldOf (log_truncated h reply) "response_code" = none) ∧
    (reply.header.rcode ≠ RCODE_NOERROR →
      fieldOf (log_truncated h reply) "response_code" =
        some (.num reply.header.rcode) ∧
      fieldOf (log_truncated h reply) "response_records" = none)

/-- Claim C7 as stated: the resolver is constructed with the configured
timeout value, defaulting to 5 when the parameters do not specify one. -/
def C7_claim : Prop :=
  ∀ (p : CleanedParams) (st : ProxyState) (u : DNSServer),
    run initState p = some st → st.udp_server = some u →
    u.resolver.timeout = getNum p "timeout" 5

/-- Claim C8 as stated: a start call whose parameters contain no `port`
value rejects the configuration instead of serving on a defaulted port. -/
def C8_claim : Prop :=
  ∀ p : CleanedParams, pget p "port" = none → run initState p = none

/-! ## Helper lemmas -/

/-- A hex digit below 16 decodes back to itself. -/
theorem hexVal_hexDigit (d : Nat) (hd : d < 16) : hexVal (hexDigit d) = some d := by
  interval_cases d <;> decide

/-- A hex digit below 16 is a lowercase hexadecimal character. -/
theorem hexDigit_mem_alphabet (d : Nat) (hd : d < 16) :
    hexDigit d ∈ "0123456789abcdef".data := by
  interval_cases d <;> decide

/-- The characters of `hexlify bs`. -/
theorem hexlify_data (bs : List Nat) :
    (hexlify bs).data = bs.flatMap (fun b => [hexDigit (b / 16), hexDigit (b % 16)]) := rfl

/-- `hexlify` round-trips through `unhexlify` on byte lists. -/
theorem unhexlify_hexlify (bs : List Nat) (hb : ∀ b ∈ bs, b < 256) :
    unhexlify (hexlify bs).data = some bs := by
  rw [hexlify_data]
  induction bs with
  | nil => rfl
  | cons b rest ih =>
    have hb1 : b < 256 := hb b (by simp)
    have h1 : b / 16 < 16 := by omega
    have h2 : b % 16 < 16 := by omega
    have hstep : (b :: rest).flatMap (fun x => [hexDigit (x / 16), hexDigit (x % 16)]) =
        hexDigit (b / 16) :: hexDigit (b % 16) ::
          rest.flatMap (fun x => [hexDigit (x / 16), hexDigit (x % 16)]) := by
      simp
    rw [hstep]
    have hrec := ih (fun x hx => hb x (by simp [hx]))
    simp only [unhexlify, hexVal_hexDigit _ h1, hexVal_hexDigit _ h2, hrec]
    have hbm : 16 * (b / 16) + b % 16 = b := by omega
    rw [hbm]

/-- Every character `hexlify` produces on a byte list is lowercase hex. -/
theorem hexlify_mem_alphabet (bs : List Nat) (hb : ∀ b ∈ bs, b < 256) :
    ∀ c ∈ (hexlify bs).data, c ∈ "0123456789abcdef".data := by
  rw [hexlify_data]
  intro c hc
  rw [List.mem_flatMap] at hc
  obtain ⟨b, hbmem, hcmem⟩ := hc
  have hb1 : b < 256 := hb b hbmem
  have h1 : b / 16 < 16 := by omega
  have h2 : b % 16 < 16 := by omega
  simp only [List.mem_cons, List.not_mem_nil, or_false] at hcmem
  rcases hcmem with h | h
  · exact h ▸ hexDigit_mem_alphabet _ h1
  · exact h ▸ hexDigit_mem_alphabet _ h2

/-- `partitionChars` finds nothing in a colon-free list. -/
theorem partitionChars_of_not_mem (l : List Char) (hl : ':' ∉ l) :
    partitionChars l = none := by
  induction l with
  | nil => rfl
  | cons c cs ih =>
    have hc : ¬ c = ':' := fun h => hl (h ▸ List.mem_cons_self c cs)
    have hcs : ':' ∉ cs := fun h => hl (List.mem_cons_of_mem c h)
    simp [partitionChars, hc, ih hcs]

/-- `partitionChars` splits at the first colon. -/
theorem partitionChars_first (a b : List Char) (ha : ':' ∉ a) :
    partitionChars (a ++ ':' :: b) = some (a, b) := by
  induction a with
  | nil => simp [partitionChars]
  | cons c cs ih =>
    have hc : ¬ c = ':' := fun h => ha (h ▸ List.mem_cons_self c cs)
    have hcs : ':' ∉ cs := fun h => ha (List.mem_cons_of_mem c h)
    simp [partitionChars, hc, ih hcs]

/-- Parsing an upstream string without a colon: the whole string is the
host and the port defaults to 53. -/
theorem parseUpstream_no_colon (a : List Char) (ha : ':' ∉ a) :
    parseUpstream (String.mk a) = (String.mk a, some 53) := by
  simp [parseUpstream, pyPartition, partitionChars_of_not_mem a ha]

/-- Parsing an upstream string with a colon: the host is the text before
the first colon; the port is 53 when the text after it is empty and its
integer value otherwise. -/
theorem parseUpstream_colon (a b : List Char) (ha : ':' ∉ a) :
    parseUpstream (String.mk (a ++ ':' :: b)) =
      (String.mk a, if b = [] then some 53 else pyInt (String.mk b)) := by
  simp only [parseUpstream, pyPartition]
  rw [partitionChars_first a b ha]
  by_cases hb : b = []
  · subst hb; simp
  · have hb2 : ¬ (String.mk b = "") := fun h => hb (by simpa using congrArg String.data h)
    simp [hb, hb2]

/-- `run` on an already-started state returns it unchanged. -/
theorem run_started (st : ProxyState) (p : CleanedParams)
    (h : st.udp_server.isSome) : run st p = some st := by
  simp [run, h]

/-- Inversion for a successful first `run`: the parameters carried an
upstream string, its port text parsed, and the resulting state holds the
UDP and the TCP server built from the configuration. -/
theorem run_init_inv (p : CleanedParams) (st : ProxyState)
    (h : run initState p = some st) :
    ∃ ud uport, getStrOpt p "upstream_dns" = some ud ∧
      (parseUpstream ud).2 = some uport ∧
      st = { udp_server := some
               { resolver := { address := (parseUpstream ud).1, port := uport, timeout := 5 },
                 port := getNum p "port" 53, address := getStr p "address" "", tcp := false },
             tcp_server := some
               { resolver := { address := (parseUpstream ud).1, port := uport, timeout := 5 },
                 port := getNum p "port" 53, address := getStr p "address" "", tcp := true } } := by
  unfold run at h
  simp only [initState, Option.isSome_none, Bool.false_eq_true, if_false] at h
  split at h
  · exact absurd h (by simp)
  · rename_i ud hud
    split at h
    · exact absurd h (by simp)
    · rename_i uport hport
      refine ⟨ud, uport, hud, hport, ?_⟩
      simpa using h.symm

/-- Iterating `run` from a fixed point stays there. -/
theorem runN_fixed (p : CleanedParams) (st : ProxyState)
    (h : run st p = some st) : ∀ n, runN n st p = some st := by
  intro n
  induction n with
  | zero => rfl
  | succ n ih => simp [runN, h, ih]

/-- `log_recv` events have type `received`. -/
theorem eventType_log_recv (h : Handler) (d : List Nat) :
    eventType (log_recv h d) = some (.str "received") := rfl

/-- `log_send` events have type `sent`. -/
theorem eventType_log_send (h : Handler) (d : List Nat) :
    eventType (log_send h d) = some (.str "sent") := rfl

/-- `log_request` events have type `request`. -/
theorem eventType_log_request (h : Handler) (r : DNSRecordMsg) :
    eventType (log_request h r) = some (.str "request") := rfl

/-- `log_reply` events have type `reply` in both branches. -/
theorem eventType_log_reply (h : Handler) (r : DNSRecordMsg) :
    eventType (log_reply h r) = some (.str "reply") := by
  by_cases hr : r.header.rcode = RCODE_NOERROR <;>
    simp [eventType, log_reply, fieldOf, List.find?, hr]

/-- `log_truncated` events have type `truncated_reply`. -/
theorem eventType_log_truncated (h : Handler) (r : DNSRecordMsg) :
    eventType (log_truncated h r) = some (.str "truncated_reply") := rfl

/-- `log_error` events have type `invalid_request`. -/
theorem eventType_log_error (h : Handler) (e : String) :
    eventType (log_error h e) = some (.str "invalid_request") := rfl

/-! ## Claims -/

/-- Claim C1: every event `log_reply` emits has type `reply` and carries
the query name and answer type; when the reply header's response code is
NOERROR it carries `response_records`, the comma-joined record-type names
of the answer records, and no `response_code`; otherwise it carries
`response_code` equal to the header's response code and no
`response_records`. -/
theorem C1_log_reply_event (h : Handler) (reply : DNSRecordMsg) :
    fieldOf (log_reply h reply) "type" = some (.str "reply") ∧
    fieldOf (log_reply h reply) "query_name" = some (.str reply.q.qname) ∧
    fieldOf (log_reply h reply) "response_type" = some (.str (QTYPE reply.q.qtype)) ∧
    (reply.header.rcode = RCODE_NOERROR →
      fieldOf (log_reply h reply) "response_records" =
        some (.str (String.intercalate "," (reply.rr.map (fun a => QTYPE a.rtype)))) ∧
      fieldOf (log_reply h reply) "response_code" = none) ∧
    (reply.header.rcode ≠ RCODE_NOERROR →
      fieldOf (log_reply h reply) "response_code" = some (.num reply.header.rcode) ∧
      fieldOf (log_reply h reply) "response_records" = none) := by
  by_cases hr : reply.header.rcode = RCODE_NOERROR <;>
    simp [log_reply, fieldOf, List.find?, hr]

/-- Claim C1, witness: a NOERROR reply with one A record yields
`response_records = "A"` and no `response_code`; an NXDOMAIN reply
yields `response_code = 3` and no `response_records`. -/
theorem C1_witness :
    fieldOf (log_reply h0 replyOk) "response_records" = some (.str "A") ∧
    fieldOf (log_reply h0 replyOk) "response_code" = none ∧
    fieldOf (log_reply h0 replyErr) "response_code" = some (.num 3) ∧
    fieldOf (log_reply h0 replyErr) "response_records" = none :=
  ⟨((C1_log_reply_event h0 replyOk).2.2.2.1 (by decide)).1.trans (by decide),
   ((C1_log_reply_event h0 replyOk).2.2.2.1 (by decide)).2,
   ((C1_log_reply_event h0 replyErr).2.2.2.2 (by decide)).1.trans (by decide),
   ((C1_log_reply_event h0 replyErr).2.2.2.2 (by decide)).2⟩

/-- Claim C2: for every successfully decoded query, the serving loop
emits exactly one `received`, one `request`, and exactly one of
`reply`, `truncated_reply`, `invalid_request`, in the order received,
request, reply-class event, then possibly `sent`; a `sent` event exists
exactly when reply bytes were transmitted back to the client.
(The loop is modelled from the spec, see `handleDatagram`.) -/
theorem C2_event_sequence (h : Handler) (raw : List Nat) (request : DNSRecordMsg)
    (up : UpstreamOutcome) :
    countType (handleDatagram h raw (some request) up).1 "received" = 1 ∧
    countType (handleDatagram h raw (some request) up).1 "request" = 1 ∧
    countType (handleDatagram h raw (some request) up).1 "reply" +
      countType (handleDatagram h raw (some request) up).1 "truncated_reply" +
      countType (handleDatagram h raw (some request) up).1 "invalid_request" = 1 ∧
    (∃ e3 rest, (handleDatagram h raw (some request) up).1 =
        log_recv h raw :: log_request h request :: e3 :: rest ∧
      (eventType e3 = some (.str "reply") ∨ eventType e3 = some (.str "truncated_reply") ∨
        eventType e3 = some (.str "invalid_request")) ∧
      ((rest = [] ∧ (handleDatagram h raw (some request) up).2 = none) ∨
        (∃ bs, rest = [log_send h bs] ∧
          (handleDatagram h raw (some request) up).2 = some bs))) ∧
    (countType (handleDatagram h raw (some request) up).1 "sent" =
      if (handleDatagram h raw (some request) up).2.isSome then 1 else 0) := by
  cases up with
  | fail e =>
    refine ⟨?_, ?_, ?_, ⟨log_error h e, [], rfl, ?_, Or.inl ⟨rfl, rfl⟩⟩, ?_⟩ <;>
      simp [handleDatagram, countType, List.filter, eventType_log_recv,
        eventType_log_request, eventType_log_error]
  | ok rawReply dec =>
    cases dec with
    | none =>
      refine ⟨?_, ?_, ?_, ⟨log_error h "invalid reply", [], rfl, ?_, Or.inl ⟨rfl, rfl⟩⟩, ?_⟩ <;>
        simp [handleDatagram, countType, List.filter, eventType_log_recv,
          eventType_log_request, eventType_log_error]
    | some reply =>
      by_cases htc : reply.header.tc
      · refine ⟨?_, ?_, ?_,
          ⟨log_truncated h reply, [log_send h rawReply], ?_, ?_,
            Or.inr ⟨rawReply, rfl, ?_⟩⟩, ?_⟩ <;>
          simp [handleDatagram, htc, countType, List.filter, eventType_log_recv,
            eventType_log_request, eventType_log_truncated, eventType_log_send]
      · refine ⟨?_, ?_, ?_,
          ⟨log_reply h reply, [log_send h rawReply], ?_, ?_,
            Or.inr ⟨rawReply, rfl, ?_⟩⟩, ?_⟩ <;>
          simp [handleDatagram, htc, countType, List.filter, eventType_log_recv,
            eventType_log_request, eventType_log_reply, eventType_log_send]

/-- Claim C3, counterexample: the claim that a truncated reply event
carries either the record-type list or the response code according to
the reply's response code, exactly as a `reply` event would, is false:
for a truncated SERVFAIL reply, `log_truncated` still emits
`response_records` and no `response_code`. -/
theorem C3_counterexample : ¬ C3_claim := by
  intro hc
  have h1 := (hc h0 replyTruncErr).2 (by decide)
  exact absurd h1.2 (by decide)

/-- Claim C3, amended: every event `log_truncated` emits has type
`truncated_reply` and carries the query name and answer type, but it
always carries the comma-joined record-type list and never a
`response_code`, regardless of the reply's response code; its field
shape agrees with a normal `reply` event exactly when the response code
is NOERROR. -/
theorem C3_log_truncated_event (h : Handler) (reply : DNSRecordMsg) :
    fieldOf (log_truncated h reply) "type" = some (.str "truncated_reply") ∧
    fieldOf (log_truncated h reply) "query_name" = some (.str reply.q.qname) ∧
    fieldOf (log_truncated h reply) "response_type" = some (.str (QTYPE reply.q.qtype)) ∧
    fieldOf (log_truncated h reply) "response_records" =
      some (.str (String.intercalate "," (reply.rr.map (fun a => QTYPE a.rtype)))) ∧
    fieldOf (log_truncated h reply) "response_code" = none ∧
    (reply.header.rcode = RCODE_NOERROR →
      fieldOf (log_truncated h reply) "response_records" =
        fieldOf (log_reply h reply) "response_records" ∧
      fieldOf (log_truncated h reply) "response_code" =
        fieldOf (log_reply h reply) "response_code") := by
  refine ⟨?_, ?_, ?_, ?_, ?_, fun hr => ?_⟩ <;>
    simp [log_truncated, log_reply, fieldOf, List.find?, *]

/-- Claim C3, witness for the amended statement: on a truncated NOERROR
reply the truncated event has the same `response_records` and
`response_code` fields a `reply` event would have. -/
theorem C3_witness :
    fieldOf (log_truncated h0 replyTruncOk) "type" = some (.str "truncated_reply") ∧
    fieldOf (log_truncated h0 replyTruncOk) "response_records" =
      fieldOf (log_reply h0 replyTruncOk) "response_records" ∧
    fieldOf (log_truncated h0 replyTruncOk) "response_code" =
      fieldOf (log_reply h0 replyTruncOk) "response_code" :=
  ⟨(C3_log_truncated_event h0 replyTruncOk).1,
   ((C3_log_truncated_event h0 replyTruncOk).2.2.2.2.2 (by decide)).1,
   ((C3_log_truncated_event h0 replyTruncOk).2.2.2.2.2 (by decide)).2⟩

/-- Claim C4: `run` is idempotent. Once started, any further `run` call
is a no-op that errors on nothing and creates no servers; after any
positive number of calls with the same parameters the state holds
exactly one UDP server and one TCP server on the configured address and
port. -/
theorem C4_run_idempotent (p : CleanedParams) (st1 : ProxyState)
    (hstart : run initState p = some st1) :
    (∀ st : ProxyState, st.udp_server.isSome → run st p = some st) ∧
    (∀ n : Nat, runN (n + 1) initState p = some st1) ∧
    ∃ u t : DNSServer,
      st1.udp_server = some u ∧ st1.tcp_server = some t ∧
      u.tcp = false ∧ t.tcp = true ∧
      u.port = getNum p "port" 53 ∧ t.port = getNum p "port" 53 ∧
      u.address = getStr p "address" "" ∧ t.address = getStr p "address" "" := by
  obtain ⟨ud, uport, hud, hport, hst⟩ := run_init_inv p st1 hstart
  have hsome : st1.udp_server.isSome := by rw [hst]; rfl
  have hfix : run st1 p = some st1 := run_started st1 p hsome
  refine ⟨fun st h => run_started st p h, fun n => ?_, ?_⟩
  · simp [runN, hstart, runN_fixed p st1 hfix n]
  · rw [hst]
    exact ⟨_, _, rfl, rfl, rfl, rfl, rfl, rfl, rfl, rfl⟩

/-- Claim C4, witness: three successive `run` calls on `p4` end in the
same started state the first call produced. -/
theorem C4_witness : runN (2 + 1) initState p4 = some st4c :=
  (C4_run_idempotent p4 st4c (by decide)).2.1 2

/-- Claim C5: the upstream string is split at the first `:` into host
and port text; with no colon the port is 53, otherwise the port is the
integer value of the text after the colon (53 again when that text is
empty, matching `int(upstream_dns_port or 53)`); and the single parse
at startup is shared, the UDP and the TCP server holding the same
resolver built from it. -/
theorem C5_upstream_parse (a b : List Char) (p : CleanedParams) (st : ProxyState)
    (ha : ':' ∉ a) :
    parseUpstream (String.mk a) = (String.mk a, some 53) ∧
    parseUpstream (String.mk (a ++ ':' :: b)) =
      (String.mk a, if b = [] then some 53 else pyInt (String.mk b)) ∧
    (run initState p = some st →
      ∃ u t, st.udp_server = some u ∧ st.tcp_server = some t ∧
        u.resolver = t.resolver ∧
        ∃ ud, getStrOpt p "upstream_dns" = some ud ∧
          u.resolver.address = (parseUpstream ud).1 ∧
          some u.resolver.port = (parseUpstream ud).2) := by
  refine ⟨parseUpstream_no_colon a ha, parseUpstream_colon a b ha, fun hrun => ?_⟩
  obtain ⟨ud, uport, hud, hport, hst⟩ := run_init_inv p st hrun
  subst hst
  exact ⟨_, _, rfl, rfl, rfl, ud, hud, rfl, hport.symm⟩

/-- Claim C5, witness: `8.8.8.8:53` parses to host `8.8.8.8` and port
53, and the started state from `p4` shares one resolver built from the
parse. -/
theorem C5_witness :
    parseUpstream (String.mk ("8.8.8.8".data ++ ':' :: "53".data)) =
      (String.mk "8.8.8.8".data,
        if ("53".data : List Char) = [] then some 53 else pyInt (String.mk "53".data)) ∧
    ∃ u t, st4c.udp_server = some u ∧ st4c.tcp_server = some t ∧
      u.resolver = t.resolver ∧
      ∃ ud, getStrOpt p4 "upstream_dns" = some ud ∧
        u.resolver.address = (parseUpstream ud).1 ∧
        some u.resolver.port = (parseUpstream ud).2 :=
  ⟨(C5_upstream_parse "8.8.8.8".data "53".data p4 st4c (by decide)).2.1,
   (C5_upstream_parse "8.8.8.8".data "53".data p4 st4c (by decide)).2.2 (by decide)⟩

/-- Claim C6: received and sent events carry a `length` field equal to
the byte count of the payload and a `data` field that is the lowercase
hexadecimal encoding of exactly those bytes: it decodes back to the
payload and uses only the characters `0`-`9`, `a`-`f`. -/
theorem C6_payload_fields (h : Handler) (data : List Nat) (hb : ∀ b ∈ data, b < 256) :
    fieldOf (log_recv h data) "length" = some (.num data.length) ∧
    fieldOf (log_send h data) "length" = some (.num data.length) ∧
    fieldOf (log_recv h data) "data" = some (.str (hexlify data)) ∧
    fieldOf (log_send h data) "data" = some (.str (hexlify data)) ∧
    unhexlify (hexlify data).data = some data ∧
    (∀ c ∈ (hexlify data).data, c ∈ "0123456789abcdef".data) := by
  refine ⟨?_, ?_, ?_, ?_, unhexlify_hexlify data hb, hexlify_mem_alphabet data hb⟩ <;>
    simp [log_recv, log_send, fieldOf, List.find?]

/-- Claim C6, witness: the payload `[0, 255, 16, 171]` yields length 4
and data `00ff10ab`, which decodes back to the payload. -/
theorem C6_witness :
    fieldOf (log_recv h0 [0, 255, 16, 171]) "length" = some (.num 4) ∧
    fieldOf (log_recv h0 [0, 255, 16, 171]) "data" = some (.str "00ff10ab") ∧
    unhexlify (hexlify [0, 255, 16, 171]).data = some [0, 255, 16, 171] :=
  ⟨(C6_payload_fields h0 [0, 255, 16, 171] (by decide)).1.trans (by decide),
   (C6_payload_fields h0 [0, 255, 16, 171] (by decide)).2.2.1.trans (by decide),
   (C6_payload_fields h0 [0, 255, 16, 171] (by decide)).2.2.2.2.1⟩

/-- Claim C7, counterexample: the claim that the resolver is constructed
with a configured timeout value is false: parameters carrying
`timeout = 10` still produce a resolver with timeout 5. -/
theorem C7_counterexample : ¬ C7_claim := by
  intro hc
  have := hc p7 st7c u7 (by decide) (by decide)
  exact absurd this (by decide)

/-- Claim C7, amended: the upstream forward timeout is not configurable;
every start constructs the resolver with the fixed timeout 5, whatever
the parameters contain. -/
theorem C7_timeout_fixed (p : CleanedParams) (st : ProxyState)
    (hrun : run initState p = some st) :
    ∃ u t, st.udp_server = some u ∧ st.tcp_server = some t ∧
      u.resolver.timeout = 5 ∧ t.resolver.timeout = 5 := by
  obtain ⟨ud, uport, hud, hport, hst⟩ := run_init_inv p st hrun
  subst hst
  exact ⟨_, _, rfl, rfl, rfl, rfl⟩

/-- Claim C7, witness: the state started from `p4` has resolver timeout
5 in both servers. -/
theorem C7_witness :
    ∃ u t, st4c.udp_server = some u ∧ st4c.tcp_server = some t ∧
      u.resolver.timeout = 5 ∧ t.resolver.timeout = 5 :=
  C7_timeout_fixed p4 st4c (by decide)

/-- Claim C8, counterexample: the claim that a configuration without a
`port` value is rejected is false: `run` on parameters lacking `port`
starts the servers anyway. -/
theorem C8_counterexample : ¬ C8_claim := by
  intro hc
  exact absurd (hc p8 (by decide)) (by decide)

/-- Claim C8, amended: the scheme declares `port` required
(`empty_allowed = false`), so the host-side validation is expected to
reject an absent port; but the `run` operation itself substitutes the
default 53 for a missing `port` parameter and starts both servers on
it. -/
theorem C8_port_defaults (p : CleanedParams) (st : ProxyState)
    (hport : pget p "port" = none) (hrun : run initState p = some st) :
    ((dnsProxyArgs.find? (fun f => f.name = "port")).map FieldSpec.empty_allowed =
      some false) ∧
    ∃ u t, st.udp_server = some u ∧ st.tcp_server = some t ∧
      u.port = 53 ∧ t.port = 53 := by
  obtain ⟨ud, uport, hud, hup, hst⟩ := run_init_inv p st hrun
  subst hst
  refine ⟨by decide, _, _, rfl, rfl, ?_, ?_⟩ <;> simp [getNum, hport]

/-- Claim C8, witness: parameters with no `port` key start both servers
on port 53. -/
theorem C8_witness :
    ((dnsProxyArgs.find? (fun f => f.name = "port")).map FieldSpec.empty_allowed =
      some false) ∧
    ∃ u t, st7c.udp_server = some u ∧ st7c.tcp_server = some t ∧
      u.port = 53 ∧ t.port = 53 :=
  C8_port_defaults p8 st7c (by decide) (by decide)

/-- Claim C9: every event any logger method emits carries a `type` field
drawn from the closed six-element set and carries the client address,
client port and protocol of the handling context. -/
theorem C9_event_envelope (h : Handler) (data : List Nat) (req rep : DNSRecordMsg)
    (err : String) :
    goodEnvelope (log_recv h data) "received" h ∧
    goodEnvelope (log_send h data) "sent" h ∧
    goodEnvelope (log_request h req) "request" h ∧
    goodEnvelope (log_reply h rep) "reply" h ∧
    goodEnvelope (log_truncated h rep) "truncated_reply" h ∧
    goodEnvelope (log_error h err) "invalid_request" h := by
  by_cases hr : rep.header.rcode = RCODE_NOERROR <;>
    refine ⟨?_, ?_, ?_, ?_, ?_, ?_⟩ <;>
      simp [goodEnvelope, log_recv, log_send, log_request, log_reply, log_truncated,
        log_error, fieldOf, List.find?, eventTypes, hr]

/-- Claim C10: an upstream string ending in a colon with empty port text
parses to the default port 53, identically to the same string with no
colon at all. -/
theorem C10_empty_port (a : List Char) (ha : ':' ∉ a) :
    parseUpstream (String.mk (a ++ [':'])) = (String.mk a, some 53) ∧
    parseUpstream (String.mk (a ++ [':'])) = parseUpstream (String.mk a) := by
  have h1 : parseUpstream (String.mk (a ++ [':'])) = (String.mk a, some 53) := by
    simpa using parseUpstream_colon a [] ha
  exact ⟨h1, h1.trans (parseUpstream_no_colon a ha).symm⟩

/-- Claim C10, witness: `host:` parses to host `host` and port 53, the
same result as `host`. -/
theorem C10_witness :
    parseUpstream (String.mk ("host".data ++ [':'])) = (String.mk "host".data, some 53) ∧
    parseUpstream (String.mk ("host".data ++ [':'])) = parseUpstream (String.mk "host".data) :=
  C10_empty_port "host".data (by decide)

end DNSProxy
